import Mathlib

/-!
Shallow embedding of the APA reference-list generator
(src/src/output/apa.rs) of the hayagriva repository.

The core under verification is `src/src/output/apa.rs`: the source-shape
classifier (`SourceType::for_entry`), the name/date/title/source clause
formatters, and their shared helpers (`format_range`, `ampersand_list`,
`ed_vol_str`).  External collaborators of that file (the `crate::types`
entry accessors and type-predicate interface, and the `crate::lang`
month-name/ordinal/initials helpers) are not under src/; they are
modelled from the specification, and each such definition carries a
doc comment starting with "Modelled from the spec:".

Conventions of the embedding:
- Rust `Result`/`Option` accessors become `Option` fields on `Entry`
  (`Ok`/`Some` is `some`, `Err`/`None` is `none`).
- A Rust panic (`todo!()`, `unwrap()` on `None`, out-of-bounds index)
  is modelled as the value `none` of an `Option`-typed result.
- The sentence-case transform is an external collaborator declared out
  of scope by the specification; the `title` field of the model stands
  for the sentence-cased title text that `get_title_fmt` delivers.
- Machine integers (`i64`, `u8`, `usize`) become `Int`/`Nat`; none of
  the modelled operations can overflow at the sizes the code handles.
-/

/-- Closed set of entry type tags (`EntryType` in `crate::types`),
covering every tag referenced by `src/src/output/apa.rs`. -/
inductive EntryType where
  | Article
  | Periodical
  | InAnthology
  | Anthology
  | Entry
  | Reference
  | Proceedings
  | Video
  | Thesis
  | Manuscript
  | Artwork
  | Exhibition
  | WebItem
  | Misc
  | Blog
  | Conference
  | Book
  | Report
  | NewspaperIssue
deriving DecidableEq

/-- Person roles (`PersonRole` in `crate::types`); the apa.rs code only
inspects `ExecutiveProducer`. -/
inductive PersonRole where
  | ExecutiveProducer
  | Translator
  | Afterword
  | Foreword
deriving DecidableEq

/-- A person (`Person` in `crate::types`): family name, optional name
particle (called `prefix` in the source; renamed because that word is a
Lean keyword), optional suffix, optional given name(s). -/
structure Person where
  name : String
  given_name : Option String
  prefix_ : Option String
  suffix : Option String
deriving DecidableEq

/-- A number-or-free-text value (`NumOrStr` in `crate::types`). -/
inductive NumOrStr where
  | Number (n : Int)
  | Str (s : String)
deriving DecidableEq

/-- Display form of a `NumOrStr`, as the Rust `Display` impl prints it
inside `format!`. -/
def NumOrStr.display : NumOrStr → String
  | NumOrStr.Number n => toString n
  | NumOrStr.Str s => s

/-- A numeric range (`std::ops::Range`, `start..end`); `end` is a Lean
keyword, so the field is called `stop`. -/
structure NRange where
  start : Int
  stop : Int
deriving DecidableEq

/-- A date (year required, month and day optional). -/
structure Date where
  year : Int
  month : Option Nat
  day : Option Nat
deriving DecidableEq

/-- A url together with its optional visit date (`QualifiedUrl`). -/
structure QUrl where
  value : String
  visit_date : Option Date
deriving DecidableEq

/-- A formatted string; apa.rs only ever reads its `value`. -/
structure FmtString where
  value : String
deriving DecidableEq

/-- The record fields of an entry, parameterized by the type of the
parent entries so that `Entry` below can tie the recursive knot. -/
structure EntryCore (P : Type) where
  entry_type : EntryType
  parents : List P
  title : Option String
  authors : List Person
  editors : Option (List Person)
  affiliated_persons : Option (List (List Person × PersonRole))
  date : Option Date
  volume : Option NRange
  issue : Option NumOrStr
  edition : Option NumOrStr
  page_range : Option NRange
  serial_number : Option String
  url : Option QUrl
  publisher : Option FmtString
  organization : Option String
  archive : Option FmtString

/-- A bibliographic record (`Entry`): a type tag, a list of parent
entries, and the independently optional fields of the data model. -/
inductive Entry where
  | mk (core : EntryCore Entry)

/-- The field record of an entry. -/
def Entry.core : Entry → EntryCore Entry
  | Entry.mk c => c

def Entry.entry_type (e : Entry) : EntryType := e.core.entry_type

def Entry.parents (e : Entry) : List Entry := e.core.parents

def Entry.title (e : Entry) : Option String := e.core.title

def Entry.authors (e : Entry) : List Person := e.core.authors

def Entry.editors (e : Entry) : Option (List Person) := e.core.editors

def Entry.affiliated_persons (e : Entry) :
    Option (List (List Person × PersonRole)) := e.core.affiliated_persons

def Entry.date (e : Entry) : Option Date := e.core.date

def Entry.volume (e : Entry) : Option NRange := e.core.volume

def Entry.issue (e : Entry) : Option NumOrStr := e.core.issue

def Entry.edition (e : Entry) : Option NumOrStr := e.core.edition

def Entry.page_range (e : Entry) : Option NRange := e.core.page_range

def Entry.serial_number (e : Entry) : Option String := e.core.serial_number

def Entry.url (e : Entry) : Option QUrl := e.core.url

def Entry.publisher (e : Entry) : Option FmtString := e.core.publisher

def Entry.organization (e : Entry) : Option String := e.core.organization

def Entry.archive (e : Entry) : Option FmtString := e.core.archive

/-- The entry with its page range removed and all other fields kept. -/
def Entry.withPageRangeNone (e : Entry) : Entry :=
  Entry.mk { e.core with page_range := none }

/-- Modelled from the spec: the `Modality` predicate over a type tag
(`EntryTypeModality` in `crate::types`, not under src/) — `Any` always
matches, `Specific` is an exact match, `Alternate` a membership test. -/
inductive EntryTypeModality where
  | Any
  | Specific (t : EntryType)
  | Alternate (ts : List EntryType)

/-- Modelled from the spec: one `matches(candidate)` operation of a
modality against a type tag. -/
def EntryTypeModality.matches (m : EntryTypeModality) (t : EntryType) : Bool :=
  match m with
  | EntryTypeModality.Any => true
  | EntryTypeModality.Specific u => decide (t = u)
  | EntryTypeModality.Alternate ts => ts.any fun u => decide (t = u)

/-- Modelled from the spec: a type pattern (`EntryTypeSpec` in
`crate::types`, not under src/) — a modality for the own type plus one
modality per required parent, matching the (own-type modality,
parent-type modality) pairs and single-type predicates of the
type-predicate interface. -/
structure EntryTypeSpec where
  entry_type : EntryTypeModality
  parents : List EntryTypeModality

/-- Modelled from the spec: `EntryTypeSpec::new`. -/
def EntryTypeSpec.new (m : EntryTypeModality) (ps : List EntryTypeModality) :
    EntryTypeSpec := EntryTypeSpec.mk m ps

/-- Modelled from the spec: `EntryTypeSpec::single_parent`. -/
def EntryTypeSpec.single_parent (own parent : EntryTypeModality) :
    EntryTypeSpec := EntryTypeSpec.mk own [parent]

/-- Modelled from the spec: `EntryTypeSpec::with_single` — a
single-type predicate with no parent requirement. -/
def EntryTypeSpec.with_single (t : EntryType) : EntryTypeSpec :=
  EntryTypeSpec.mk (EntryTypeModality.Specific t) []

/-- Modelled from the spec: `EntryTypeSpec::with_parents` — an exact
own type plus the given parent requirements. -/
def EntryTypeSpec.with_parents (t : EntryType) (ps : List EntryTypeModality) :
    EntryTypeSpec := EntryTypeSpec.mk (EntryTypeModality.Specific t) ps

/-- Modelled from the spec: scan the parent list and return the first
index whose type tag matches the modality. -/
def findMatch (pm : EntryTypeModality) : List Entry → Option Nat
  | [] => none
  | p :: ps =>
    if pm.matches p.entry_type then some 0
    else (findMatch pm ps).map (· + 1)

/-- Modelled from the spec: resolve every parent requirement of a spec
against the parent list, yielding one matched index per requirement. -/
def checkParents (pars : List Entry) : List EntryTypeModality → Option (List Nat)
  | [] => some []
  | pm :: rest =>
    match findMatch pm pars, checkParents pars rest with
    | some i, some is => some (i :: is)
    | _, _ => none

/-- Modelled from the spec: `Entry::check_with_spec` (type-predicate
interface, not under src/) — match the own modality against the type
tag and each parent requirement against some parent, returning the
matched parent index(es) or no-match. -/
def check_with_spec (e : Entry) (s : EntryTypeSpec) : Option (List Nat) :=
  if s.entry_type.matches e.entry_type then checkParents e.parents s.parents
  else none

/-- Modelled from the spec: `crate::lang::en::get_month_name` — month
number (1 to 12) to the English month name. -/
def get_month_name : Nat → Option String
  | 1 => some "January"
  | 2 => some "February"
  | 3 => some "March"
  | 4 => some "April"
  | 5 => some "May"
  | 6 => some "June"
  | 7 => some "July"
  | 8 => some "August"
  | 9 => some "September"
  | 10 => some "October"
  | 11 => some "November"
  | 12 => some "December"
  | _ => none

/-- Modelled from the spec: `crate::lang::en::get_ordinal` — numeric to
English ordinal word ("2" to "2nd"). -/
def get_ordinal (n : Int) : String :=
  let m := n.natAbs % 100
  let suf :=
    if 11 ≤ m ∧ m ≤ 13 then "th"
    else match n.natAbs % 10 with
      | 1 => "st"
      | 2 => "nd"
      | 3 => "rd"
      | _ => "th"
  toString n ++ suf

/-- Split a character list at every occurrence of a delimiter
character (an executable stand-in for string splitting). -/
def splitOnChar (c : Char) : List Char → List (List Char)
  | [] => [[]]
  | x :: xs =>
    match splitOnChar c xs with
    | [] => [[]]
    | g :: gs => if x = c then [] :: g :: gs else (x :: g) :: gs

/-- Modelled from the spec: derive the initial of one space-delimited
given-name token, preserving hyphens between the initials of its
hyphen-delimited parts ("Hans-Joseph" gives "H.-J."). -/
def initialsOfToken (tok : List Char) (delim : String) : String :=
  String.intercalate "-"
    ((splitOnChar '-' tok).filterMap fun sub =>
      sub.head?.map fun c => String.mk [c] ++ delim)

/-- Modelled from the spec: `Person::get_initials` (not under src/) —
one initial per space/hyphen-delimited given-name token, absent when
the person has no given name. -/
def Person.get_initials (p : Person) (delim : String) : Option String :=
  p.given_name.map fun gn =>
    String.intercalate " "
      (((splitOnChar ' ' gn.data).filter fun s => !s.isEmpty).map
        fun tok => initialsOfToken tok delim)

/-- `format_range` of apa.rs: a singular-label form when the range is
degenerate, a plural-label en-dash form otherwise; the inner space is
driven by the singular prefix being nonempty. -/
def format_range (prefix_s prefix_m : String) (r : NRange) : String :=
  let space := if prefix_s = "" then "" else " "
  if r.start = r.stop then prefix_s ++ space ++ toString r.start
  else prefix_m ++ space ++ toString r.start ++ "–" ++ toString r.stop

/-- `name_list` of apa.rs: render each person as
"{particle }{family}, {initials}{, suffix}". -/
def name_list (persons : List Person) : List String :=
  persons.map fun a =>
    let single :=
      match a.prefix_ with
      | some p => p ++ " " ++ a.name
      | none => a.name
    let single :=
      match a.get_initials "." with
      | some i => single ++ ", " ++ i
      | none => single
    match a.suffix with
    | some s => single ++ ", " ++ s
    | none => single

/-- The per-index contribution of one loop iteration of
`ampersand_list` in apa.rs (the loop body only ever appends to `res`,
so the loop is the concatenation of these contributions). -/
def amp_step (len : Int) (idx : Nat) (name : String) : String :=
  if idx > 19 ∧ len > 20 ∧ (idx : Int) ≠ len - 1 then ""
  else
    (if idx = 19 ∧ len > 20 then "... " else name)
      ++ (if (idx : Int) ≤ len - 2 then ", " else "")
      ++ (if (idx : Int) = len - 2 then "& " else "")

/-- The enumerated loop of `ampersand_list`, carrying the running
index. -/
def amp_go (len : Int) (idx : Nat) : List String → String
  | [] => ""
  | n :: rest => amp_step len idx n ++ amp_go len (idx + 1) rest

/-- `ampersand_list` of apa.rs. -/
def ampersand_list (names : List String) : String :=
  amp_go (names.length : Int) 0 names

/-- `ed_vol_str` of apa.rs: the parenthetical edition/volume suffix. -/
def ed_vol_str (entry : Entry) : String :=
  let vstr := entry.volume.map fun vols => format_range "Vol." "Vols." vols
  let estr := entry.edition.map fun ed =>
    match ed with
    | NumOrStr.Number e => get_ordinal e
    | NumOrStr.Str s => s
  match estr, vstr with
  | none, none => ""
  | some e, none => " (" ++ e ++ " ed.)."
  | none, some v => " (" ++ v ++ ")."
  | some e, some v => " (" ++ e ++ " ed., " ++ v ++ ")."

/-- The transient classification result (`SourceType` in apa.rs); the
parent-carrying shapes hold the resolved parent entry. -/
inductive SourceType where
  | PeriodicalItem (parent : Entry)
  | CollectionItem (parent : Entry)
  | TvSeries (parent : Entry)
  | Thesis
  | Manuscript
  | ArtContainer (parent : Entry)
  | StandaloneArt
  | StandaloneWebItem
  | WebItem (parent : Entry)
  | NewsItem (parent : Entry)
  | ConferenceTalk (parent : Entry)
  | Generic

/-- The `periodical` pattern of `SourceType::for_entry`. -/
def periodicalSpec : EntryTypeSpec :=
  EntryTypeSpec.single_parent EntryTypeModality.Any
    (EntryTypeModality.Specific EntryType.Periodical)

/-- The `collection_a` pattern of `SourceType::for_entry`. -/
def collectionASpec : EntryTypeSpec :=
  EntryTypeSpec.single_parent (EntryTypeModality.Specific EntryType.InAnthology)
    (EntryTypeModality.Specific EntryType.Anthology)

/-- The `collection_b` pattern of `SourceType::for_entry`. -/
def collectionBSpec : EntryTypeSpec :=
  EntryTypeSpec.single_parent (EntryTypeModality.Specific EntryType.Entry)
    EntryTypeModality.Any

/-- The `collection_c` pattern of `SourceType::for_entry`. -/
def collectionCSpec : EntryTypeSpec :=
  EntryTypeSpec.single_parent EntryTypeModality.Any
    (EntryTypeModality.Specific EntryType.Reference)

/-- The `collection_d` pattern of `SourceType::for_entry`. -/
def collectionDSpec : EntryTypeSpec :=
  EntryTypeSpec.single_parent (EntryTypeModality.Specific EntryType.Article)
    (EntryTypeModality.Specific EntryType.Proceedings)

/-- The `tv_series` pattern of `SourceType::for_entry`. -/
def tvSeriesSpec : EntryTypeSpec :=
  EntryTypeSpec.single_parent (EntryTypeModality.Specific EntryType.Video)
    (EntryTypeModality.Specific EntryType.Video)

/-- The `thesis` pattern of `SourceType::for_entry`. -/
def thesisSpec : EntryTypeSpec := EntryTypeSpec.with_single EntryType.Thesis

/-- The `manuscript` pattern of `SourceType::for_entry`. -/
def manuscriptSpec : EntryTypeSpec := EntryTypeSpec.with_single EntryType.Manuscript

/-- The `art_container` pattern of `SourceType::for_entry`. -/
def artContainerSpec : EntryTypeSpec :=
  EntryTypeSpec.single_parent EntryTypeModality.Any
    (EntryTypeModality.Specific EntryType.Artwork)

/-- The `art` pattern of `SourceType::for_entry`. -/
def artSpec : EntryTypeSpec :=
  EntryTypeSpec.new
    (EntryTypeModality.Alternate [EntryType.Artwork, EntryType.Exhibition]) []

/-- The `web_standalone` pattern of `SourceType::for_entry`. -/
def webStandaloneSpec : EntryTypeSpec := EntryTypeSpec.with_single EntryType.WebItem

/-- The `web_contained_a` pattern of `SourceType::for_entry`. -/
def webASpec : EntryTypeSpec :=
  EntryTypeSpec.single_parent EntryTypeModality.Any
    (EntryTypeModality.Alternate [EntryType.Misc, EntryType.Blog, EntryType.WebItem])

/-- The `web_contained_b` pattern of `SourceType::for_entry`. -/
def webBSpec : EntryTypeSpec :=
  EntryTypeSpec.single_parent (EntryTypeModality.Specific EntryType.WebItem)
    EntryTypeModality.Any

/-- The `talk` pattern of `SourceType::for_entry`. -/
def talkSpec : EntryTypeSpec :=
  EntryTypeSpec.single_parent EntryTypeModality.Any
    (EntryTypeModality.Specific EntryType.Conference)

/-- The `or_else` chain over the four collection patterns in
`SourceType::for_entry`. -/
def checkCollection (e : Entry) : Option (List Nat) :=
  match check_with_spec e collectionASpec with
  | some i => some i
  | none =>
    match check_with_spec e collectionBSpec with
    | some i => some i
    | none =>
      match check_with_spec e collectionCSpec with
      | some i => some i
      | none => check_with_spec e collectionDSpec

/-- The `or_else` chain over the two web-contained patterns in
`SourceType::for_entry`. -/
def checkWeb (e : Entry) : Option (List Nat) :=
  match check_with_spec e webASpec with
  | some i => some i
  | none => check_with_spec e webBSpec

/-- The tail of the classification cascade from the `thesis` test on
(the code falls through to these tests both when the `tv_series`
pattern does not match and when it matches but the issue/volume gate
fails).  The Rust `get_parents_ref().unwrap()[i[0]]` dereference is
modelled by the `Option`-valued list lookup, so a `none` result stands
for an out-of-bounds panic. -/
def for_entry_after_tv (entry : Entry) : Option SourceType :=
  match check_with_spec entry thesisSpec with
  | some _ => some SourceType.Thesis
  | none =>
  match check_with_spec entry manuscriptSpec with
  | some _ => some SourceType.Manuscript
  | none =>
  match check_with_spec entry artContainerSpec with
  | some i => (entry.parents[i.headD 0]?).map SourceType.ArtContainer
  | none =>
  match check_with_spec entry artSpec with
  | some _ => some SourceType.StandaloneArt
  | none =>
  match check_with_spec entry webStandaloneSpec with
  | some _ => some SourceType.StandaloneWebItem
  | none =>
  match checkWeb entry with
  | some i => (entry.parents[i.headD 0]?).map SourceType.WebItem
  | none =>
  match check_with_spec entry talkSpec with
  | some i => (entry.parents[i.headD 0]?).map SourceType.ConferenceTalk
  | none => some SourceType.Generic

/-- `SourceType::for_entry` of apa.rs: the ordered classification
cascade with first-match short-circuit and `Generic` fallback.  Every
`i[0]` parent dereference of the Rust code is the `Option`-valued
lookup `entry.parents[i.headD 0]?`, so a `none` result stands for a
panic of the dereference (the single-parent patterns always yield a
singleton in-bounds index list, as proved below). -/
def SourceType.for_entry (entry : Entry) : Option SourceType :=
  match check_with_spec entry periodicalSpec with
  | some i => (entry.parents[i.headD 0]?).map SourceType.PeriodicalItem
  | none =>
  match checkCollection entry with
  | some i => (entry.parents[i.headD 0]?).map SourceType.CollectionItem
  | none =>
  match check_with_spec entry tvSeriesSpec with
  | some i =>
    if entry.issue.isSome && entry.volume.isSome then
      (entry.parents[i.headD 0]?).map SourceType.TvSeries
    else for_entry_after_tv entry
  | none => for_entry_after_tv entry

/-- Rust `format!("{:04}", n)` on a signed integer: pad with zeros to a
total width of four, the sign included. -/
def fmt04 (n : Int) : String :=
  let s := toString n.natAbs
  if n < 0 then "-" ++ String.mk (List.replicate (3 - s.length) '0') ++ s
  else String.mk (List.replicate (4 - s.length) '0') ++ s

/-- The last character of a string, or the default when empty
(Rust `s.chars().last().unwrap_or(d)`). -/
def lastCharD (s : String) (d : Char) : Char := s.data.getLastD d

/-- `ApaBibliographyGenerator::get_date` of apa.rs.  The Rust method
takes an index into the entry slice; the model takes the entry itself.
The `get_month_name(month).unwrap()` panic on an out-of-range month is
modelled as a `none` result. -/
def get_date (e : Entry) : Option String :=
  match e.date with
  | some date =>
    match date.month, date.day with
    | none, _ => some ("(" ++ fmt04 date.year ++ ")")
    | some month, none =>
      (get_month_name month).map fun mn =>
        "(" ++ fmt04 date.year ++ ", " ++ mn ++ ")"
    | some month, some day =>
      (get_month_name month).map fun mn =>
        "(" ++ fmt04 date.year ++ ", " ++ mn ++ " " ++ toString day ++ ")"
  | none => some "(n. d.)"

/-- `ApaBibliographyGenerator::get_retreival_date` of apa.rs (the
misspelling comes from the source).  The `get_month_name(month).unwrap()`
panic on an out-of-range month is modelled as a `none` result. -/
def get_retreival_date (e : Entry) : Option String :=
  match e.url with
  | some qurl =>
    match qurl.visit_date with
    | some date =>
      match date.month, date.day with
      | none, _ =>
        some ("Retrieved " ++ fmt04 date.year ++ ", from " ++ qurl.value)
      | some month, none =>
        (get_month_name month).map fun mn =>
          "Retrieved " ++ mn ++ " " ++ fmt04 date.year ++ ", from " ++ qurl.value
      | some month, some day =>
        (get_month_name month).map fun mn =>
          "(Retrieved " ++ mn ++ " " ++ toString day ++ ", " ++ fmt04 date.year
            ++ ", from " ++ qurl.value ++ ")"
    | none => some qurl.value
  | none => none

/-- The `multivol_spec` pattern of `ApaBibliographyGenerator::get_title`. -/
def multivolSpec : EntryTypeSpec :=
  EntryTypeSpec.with_parents EntryType.Book
    [EntryTypeModality.Specific EntryType.Book]

/-- The `book_spec` pattern of `ApaBibliographyGenerator::get_title`. -/
def bookSpec : EntryTypeSpec :=
  EntryTypeSpec.new
    (EntryTypeModality.Alternate
      [EntryType.Book, EntryType.Report, EntryType.Reference,
       EntryType.Anthology, EntryType.Proceedings]) []

/-- `ApaBibliographyGenerator::get_title` of apa.rs: absent when the
entry has no title; otherwise the sentence-cased title with exactly one
of the multivolume prefix, the `ed_vol_str` parenthetical, or the
conditional plain terminator.  The `unwrap()` panics of the multivolume
branch (parent lookup and parent title) are modelled as a `none`
result. -/
def get_title (e : Entry) : Option String :=
  match e.title with
  | none => none
  | some title =>
    let multivolume_parent : Option Nat :=
      match check_with_spec e multivolSpec with
      | some parents => if e.volume.isSome then some (parents.headD 0) else none
      | none => none
    match multivolume_parent with
    | some mv =>
      match e.parents[mv]? with
      | none => none
      | some p =>
        match p.title, e.volume with
        | some ptitle, some vols =>
          some (ptitle ++ ": " ++ format_range "Vol." "Vols." vols
            ++ " " ++ title ++ ".")
        | _, _ => none
    | none =>
      if (e.volume.isSome || e.edition.isSome)
          && (check_with_spec e bookSpec).isSome then
        some (title ++ ed_vol_str e)
      else
        let lc := lastCharD title 'a'
        if lc ≠ '?' ∧ lc ≠ '.' ∧ lc ≠ '!' then some (title ++ ".")
        else some title

/-- The `SourceType::PeriodicalItem` arm of
`ApaBibliographyGenerator::get_source`: parent title, parent
volume/issue, then the entry serial number or, failing that, the entry
page range; commas before non-first clauses, a final period when any
clause was emitted. -/
def periodicalItemSource (entry parent : Entry) : String :=
  let res := ""
  let comma := false
  let (res, comma) :=
    match parent.title with
    | some t => (res ++ t, true)
    | none => (res, comma)
  let (res, comma) :=
    if parent.volume.isSome || parent.issue.isSome then
      let res := if comma then res ++ ", " else res
      let res :=
        match parent.volume with
        | some volume => res ++ format_range "" "" volume
        | none => res
      let res :=
        match parent.issue with
        | some issue => res ++ "(" ++ issue.display ++ ")"
        | none => res
      (res, true)
    else (res, comma)
  let (res, comma) :=
    if entry.serial_number.isSome || entry.page_range.isSome then
      let res := if comma then res ++ ", " else res
      let res :=
        match entry.serial_number with
        | some sn => res ++ sn
        | none =>
          match entry.page_range with
          | some pages => res ++ format_range "" "" pages
          | none => res
      (res, true)
    else (res, comma)
  if comma then res ++ "." else res

/-- The editor-style name prefix shared by the `CollectionItem` and
`TvSeries` arms: one name gets " (Ed.)", several get " (Eds.)". -/
def editorPrefix (names : List String) : String × Bool :=
  match names with
  | [] => ("", false)
  | [n] => (n ++ " (Ed.)", true)
  | _ => (ampersand_list names ++ " (Eds.)", true)

/-- The title-and-suffix step shared by the `CollectionItem` and
`TvSeries` arms of `get_source`: append the parent title (comma-joined
onto a previous clause), then either a space and `ed_vol_str` of the
ENTRY (gated on the PARENT having a volume or edition — this mismatch
is present in the source), or the conditional terminal period. -/
def collectionTitleStep (entry parent : Entry) (acc : String × Bool) :
    String × Bool :=
  let (res, comma) := acc
  match parent.title with
  | some t =>
    let res := if comma then res ++ ", " else res
    let res := res ++ t
    let res :=
      if parent.volume.isSome || parent.edition.isSome then
        res ++ " " ++ ed_vol_str entry
      else
        let lc := lastCharD res 'a'
        if lc ≠ '?' ∧ lc ≠ '.' ∧ lc ≠ '!' then res ++ "." else res
    (res, false)
  | none => (res, comma)

/-- The publisher-or-organization tail shared by several `get_source`
arms: append " {publisher-or-organization}." when either is present. -/
def publisherTail (parent : Entry) (res : String) : String :=
  if parent.publisher.isSome || parent.organization.isSome then
    let res := res ++ " "
    let res :=
      match parent.publisher with
      | some publisher => res ++ publisher.value
      | none =>
        match parent.organization with
        | some organization => res ++ organization
        | none => res
    res ++ "."
  else res

/-- The `SourceType::CollectionItem` arm of `get_source`. -/
def collectionItemSource (entry parent : Entry) : String :=
  let acc :=
    match parent.editors with
    | some eds => editorPrefix (name_list eds)
    | none => ("", false)
  let (res, comma) := collectionTitleStep entry parent acc
  let res := if comma then res ++ "." else res
  let res := if res.isEmpty then res else "In " ++ res
  publisherTail parent res

/-- The `SourceType::TvSeries` arm of `get_source`: like
`CollectionItem`, but the names are the parent persons credited as
executive producers, falling back to the entry authors when the parent
has no affiliated-person list. -/
def tvSeriesSource (entry parent : Entry) : String :=
  let prods :=
    match parent.affiliated_persons with
    | some aps =>
      (aps.filter fun x => decide (x.2 = PersonRole.ExecutiveProducer)).flatMap
        fun x => x.1
    | none => entry.authors
  let acc :=
    if !prods.isEmpty then editorPrefix (name_list prods)
    else ("", false)
  let (res, comma) := collectionTitleStep entry parent acc
  let res := if comma then res ++ "." else res
  let res := if res.isEmpty then res else "In " ++ res
  publisherTail parent res

/-- The `SourceType::Thesis` arm of `get_source`. -/
def thesisSource (entry : Entry) : String :=
  match entry.archive with
  | some archive => archive.value ++ "."
  | none =>
    match entry.organization with
    | some org => org ++ "."
    | none => ""

/-- The `SourceType::Manuscript` arm of `get_source`. -/
def manuscriptSource (entry : Entry) : String :=
  match entry.archive with
  | some archive => archive.value ++ "."
  | none => ""

/-- The `SourceType::Generic` arm of `get_source`. -/
def genericSource (entry : Entry) : String :=
  if entry.publisher.isSome || entry.organization.isSome then
    (match entry.publisher with
     | some publisher => publisher.value
     | none =>
       match entry.organization with
       | some organization => organization
       | none => "") ++ "."
  else ""

/-- The dispatch table of `get_source`: the clause string `res` built
by the `match st` block (the art/web/news/talk arms of the source are
empty blocks that leave `res` empty). -/
def renderSourceClause (entry : Entry) : SourceType → String
  | SourceType.PeriodicalItem p => periodicalItemSource entry p
  | SourceType.CollectionItem p => collectionItemSource entry p
  | SourceType.TvSeries p => tvSeriesSource entry p
  | SourceType.Thesis => thesisSource entry
  | SourceType.Manuscript => manuscriptSource entry
  | SourceType.ArtContainer _ => ""
  | SourceType.StandaloneArt => ""
  | SourceType.StandaloneWebItem => ""
  | SourceType.WebItem _ => ""
  | SourceType.NewsItem _ => ""
  | SourceType.ConferenceTalk _ => ""
  | SourceType.Generic => genericSource entry

/-- `ApaBibliographyGenerator::get_source` of apa.rs.  The function
classifies the entry and builds the clause string `res`, but its final
expression is `todo!()`, which panics unconditionally; the panic is
modelled as the result `none` (a classifier dereference panic, were it
reachable, is also `none`). -/
def get_source (entry : Entry) : Option String :=
  match SourceType.for_entry entry with
  | some st =>
    let _res := renderSourceClause entry st
    none
  | none => none

/-- Concatenation of a list of strings, in order. -/
def joinAll : List String → String
  | [] => ""
  | s :: rest => s ++ joinAll rest

/-- No test of the classification cascade matches the entry. -/
def noTestMatches (e : Entry) : Prop :=
  check_with_spec e periodicalSpec = none ∧ checkCollection e = none ∧
  check_with_spec e tvSeriesSpec = none ∧ check_with_spec e thesisSpec = none ∧
  check_with_spec e manuscriptSpec = none ∧
  check_with_spec e artContainerSpec = none ∧
  check_with_spec e artSpec = none ∧
  check_with_spec e webStandaloneSpec = none ∧
  checkWeb e = none ∧ check_with_spec e talkSpec = none

/-- An entry record with every optional field absent. -/
def emptyCore : EntryCore Entry :=
  { entry_type := EntryType.Misc, parents := [], title := none, authors := [],
    editors := none, affiliated_persons := none, date := none, volume := none,
    issue := none, edition := none, page_range := none, serial_number := none,
    url := none, publisher := none, organization := none, archive := none }

/-- Twenty-one one-letter names, for exercising the truncation path of
`ampersand_list`. -/
def c2names : List String :=
  ["a", "b", "c", "d", "e", "f", "g", "h", "i", "j", "k", "l", "m", "n",
   "o", "p", "q", "r", "s", "t", "u"]

/-- A periodical parent entry with no other fields. -/
def c3parent : Entry := Entry.mk
  { emptyCore with
    entry_type := EntryType.Periodical }

/-- A web-item entry contained in a periodical: structurally eligible
for both the periodical test and the web-contained tests. -/
def c3entry : Entry := Entry.mk
  { emptyCore with
    entry_type := EntryType.WebItem, parents := [c3parent] }

/-- A parentless article entry matching no cascade test. -/
def c3generic : Entry := Entry.mk
  { emptyCore with
    entry_type := EntryType.Article }

/-- An anthology parent with a title and an edition but no volume. -/
def c4parent : Entry := Entry.mk
  { emptyCore with
    entry_type := EntryType.Anthology, title := some "T",
    edition := some (NumOrStr.Number 2) }

/-- An in-anthology entry (itself without volume or edition) whose
parent is `c4parent`. -/
def c4entry : Entry := Entry.mk
  { emptyCore with
    entry_type := EntryType.InAnthology, parents := [c4parent] }

/-- A video parent entry. -/
def c5parent : Entry := Entry.mk
  { emptyCore with
    entry_type := EntryType.Video }

/-- A video entry with a video parent but neither issue nor volume. -/
def c5entry : Entry := Entry.mk
  { emptyCore with
    entry_type := EntryType.Video, parents := [c5parent] }

/-- A book entry with title, second edition and volume four. -/
def c6entry : Entry := Entry.mk
  { emptyCore with
    entry_type := EntryType.Book, title := some "T",
    edition := some (NumOrStr.Number 2), volume := some ⟨4, 4⟩ }

/-- An entry dated 2020-March-5. -/
def c7entry : Entry := Entry.mk
  { emptyCore with
    date := some ⟨2020, some 3, some 5⟩ }

/-- An entry with a url visited on 2020-March-5. -/
def c8entry : Entry := Entry.mk
  { emptyCore with
    url := some ⟨"https://x.org", some ⟨2020, some 3, some 5⟩⟩ }

/-- A minimal entry, for exercising `get_source`. -/
def c1entry : Entry := Entry.mk emptyCore

/-- A periodical parent with title, volume and issue. -/
def c10parent : Entry := Entry.mk
  { emptyCore with
    entry_type := EntryType.Periodical, title := some "J",
    volume := some ⟨3, 3⟩, issue := some (NumOrStr.Number 7) }

/-- An article in `c10parent` carrying both a serial number and a page
range. -/
def c10entry : Entry := Entry.mk
  { emptyCore with
    entry_type := EntryType.Article, parents := [c10parent],
    serial_number := some "77", page_range := some ⟨1, 9⟩ }

/-- A parent agreeing with `c10parent` on title, volume and issue but
differing elsewhere. -/
def c10parentB : Entry := Entry.mk
  { emptyCore with
    entry_type := EntryType.Misc, title := some "J",
    volume := some ⟨3, 3⟩, issue := some (NumOrStr.Number 7),
    organization := some "O", date := some ⟨1999, none, none⟩ }

/-- An entry agreeing with `c10entry` on serial number and page range
but differing elsewhere. -/
def c10entryB : Entry := Entry.mk
  { emptyCore with
    entry_type := EntryType.Book, title := some "B",
    serial_number := some "77", page_range := some ⟨1, 9⟩ }

/-- A parentless thesis entry. -/
def c9entry : Entry := Entry.mk
  { emptyCore with
    entry_type := EntryType.Thesis }

theorem length_mk_chars (l : List Char) : (String.mk l).length = l.length := rfl

theorem str_append_empty (s : String) : s ++ "" = s := by
  cases s with
  | mk l => show String.mk (l ++ []) = String.mk l
            rw [List.append_nil]

theorem fmt04_len (y : Int) : 4 ≤ (fmt04 y).length := by
  unfold fmt04
  have hdash : ("-" : String).length = 1 := rfl
  by_cases h : y < 0 <;>
    simp [h, String.length_append, length_mk_chars, List.length_replicate,
      hdash] <;>
    omega

theorem optIsSomeMap {α β : Type} (f : α → β) (o : Option α) :
    (o.map f).isSome = o.isSome := by
  cases o <;> rfl

/-- C1: the source-clause renderer never returns a string — the Rust
code unconditionally ends in `todo!()`, so every call panics (modelled
as `none`), contradicting the claim that absence of fields is handled
softly and that even minimal entries yield a best-effort string. -/
theorem c1_get_source_always_panics (e : Entry) : get_source e = none := by
  unfold get_source
  cases SourceType.for_entry e <;> rfl

/-- C4: evaluating the CollectionItem source clause at an entry whose
parent anthology carries title "T" and edition 2 while the entry itself
has no volume or edition.  The code gates the suffix on the parent but
renders `ed_vol_str` of the entry (empty here) after a stray space, so
the clause is exactly "In T " — not the "In T (2nd ed.)." that a
parent-derived suffix would give. -/
theorem c4_collection_suffix_divergence :
    SourceType.for_entry c4entry = some (SourceType.CollectionItem c4parent) ∧
    renderSourceClause c4entry (SourceType.CollectionItem c4parent) = "In T " ∧
    "In T " ≠ "In T (2nd ed.)." := by
  refine ⟨rfl, by decide, by decide⟩

/-- C7: the date renderer produces "(n. d.)" for an absent date,
"(YYYY)" for a year-only date, "(YYYY, MonthName)" with a month,
"(YYYY, MonthName D)" with month and day, the year always zero-padded
to at least four characters. -/
theorem c7_get_date_forms (e : Entry) :
    (e.date = none → get_date e = some "(n. d.)")
  ∧ (∀ d, e.date = some d → d.month = none →
      get_date e = some ("(" ++ fmt04 d.year ++ ")"))
  ∧ (∀ d m mn, e.date = some d → d.month = some m →
      get_month_name m = some mn → d.day = none →
      get_date e = some ("(" ++ fmt04 d.year ++ ", " ++ mn ++ ")"))
  ∧ (∀ d m mn dy, e.date = some d → d.month = some m →
      get_month_name m = some mn → d.day = some dy →
      get_date e =
        some ("(" ++ fmt04 d.year ++ ", " ++ mn ++ " " ++ toString dy ++ ")"))
  ∧ (∀ d, e.date = some d → 4 ≤ (fmt04 d.year).length) := by
  refine ⟨?_, ?_, ?_, ?_, ?_⟩
  · intro h; simp [get_date, h]
  · intro d hd hm; simp [get_date, hd, hm]
  · intro d m mn hd hm hmn hday; simp [get_date, hd, hm, hmn, hday]
  · intro d m mn dy hd hm hmn hday; simp [get_date, hd, hm, hmn, hday]
  · intro d _; exact fmt04_len d.year

/-- Witness for C7 at the concrete full date 2020-March-5. -/
theorem c7_witness : get_date c7entry = some "(2020, March 5)" := by
  have h :=
    (c7_get_date_forms c7entry).2.2.2.1 ⟨2020, some 3, some 5⟩ 3 "March" 5
      rfl rfl rfl rfl
  exact h.trans (by decide)

theorem month_name_isSome {m : Nat} (h1 : 1 ≤ m) (h2 : m ≤ 12) :
    (get_month_name m).isSome := by
  interval_cases m <;> rfl

/-- C8: the retrieval-date renderer is absent exactly when the entry
has no url (given in-range visit months); with a url but no visit date
it returns the bare url; a year-only or month-year visit date yields
the unparenthesized "Retrieved ..., from ..." forms, while the
full-date form alone is parenthesized. -/
theorem c8_retrieval_forms (e : Entry) :
    (e.url = none → get_retreival_date e = none)
  ∧ (∀ q, e.url = some q → q.visit_date = none →
      get_retreival_date e = some q.value)
  ∧ (∀ q d, e.url = some q → q.visit_date = some d → d.month = none →
      get_retreival_date e =
        some ("Retrieved " ++ fmt04 d.year ++ ", from " ++ q.value))
  ∧ (∀ q d m mn, e.url = some q → q.visit_date = some d → d.month = some m →
      get_month_name m = some mn → d.day = none →
      get_retreival_date e =
        some ("Retrieved " ++ mn ++ " " ++ fmt04 d.year ++ ", from " ++ q.value))
  ∧ (∀ q d m mn dy, e.url = some q → q.visit_date = some d → d.month = some m →
      get_month_name m = some mn → d.day = some dy →
      get_retreival_date e =
        some ("(Retrieved " ++ mn ++ " " ++ toString dy ++ ", " ++ fmt04 d.year
          ++ ", from " ++ q.value ++ ")"))
  ∧ (∀ q, e.url = some q →
      (∀ d m, q.visit_date = some d → d.month = some m → 1 ≤ m ∧ m ≤ 12) →
      (get_retreival_date e).isSome) := by
  refine ⟨?_, ?_, ?_, ?_, ?_, ?_⟩
  · intro h; simp [get_retreival_date, h]
  · intro q hq hv; simp [get_retreival_date, hq, hv]
  · intro q d hq hv hm; simp [get_retreival_date, hq, hv, hm]
  · intro q d m mn hq hv hm hmn hday
    simp [get_retreival_date, hq, hv, hm, hmn, hday]
  · intro q d m mn dy hq hv hm hmn hday
    simp [get_retreival_date, hq, hv, hm, hmn, hday]
  · intro q hq hval
    cases hv : q.visit_date with
    | none => simp [get_retreival_date, hq, hv]
    | some d =>
      cases hm : d.month with
      | none => simp [get_retreival_date, hq, hv, hm]
      | some m =>
        obtain ⟨h1, h2⟩ := hval d m hv hm
        obtain ⟨mn, hmn⟩ := Option.isSome_iff_exists.mp (month_name_isSome h1 h2)
        cases hday : d.day with
        | none => simp [get_retreival_date, hq, hv, hm, hmn, hday]
        | some dy => simp [get_retreival_date, hq, hv, hm, hmn, hday]

/-- Witness for C8 at a url visited on the full date 2020-March-5:
the full-date form, and only it, is parenthesized. -/
theorem c8_witness :
    get_retreival_date c8entry =
      some "(Retrieved March 5, 2020, from https://x.org)" := by
  have h :=
    (c8_retrieval_forms c8entry).2.2.2.2.1 ⟨"https://x.org", some ⟨2020, some 3, some 5⟩⟩
      ⟨2020, some 3, some 5⟩ 3 "March" 5 rfl rfl rfl rfl rfl
  exact h.trans (by decide)

/-- C10: the PeriodicalItem clause reads title, volume and issue from
the parent and serial number and page range from the entry (it is
invariant under any change of the remaining fields of either), and
with a serial number present the page range is dropped (removing it
does not change the clause). -/
theorem c10_periodical_field_sources (entry parent entry2 parent2 : Entry)
    (hsn : entry.serial_number = entry2.serial_number)
    (hpg : entry.page_range = entry2.page_range)
    (ht : parent.title = parent2.title)
    (hv : parent.volume = parent2.volume)
    (hi : parent.issue = parent2.issue) :
    periodicalItemSource entry parent = periodicalItemSource entry2 parent2
  ∧ (∀ sn, entry.serial_number = some sn →
      periodicalItemSource entry parent =
        periodicalItemSource entry.withPageRangeNone parent) := by
  constructor
  · simp only [periodicalItemSource, hsn, hpg, ht, hv, hi]
  · intro sn hsn2
    have h1 : entry.withPageRangeNone.serial_number = entry.serial_number := rfl
    have h2 : entry.withPageRangeNone.page_range = none := rfl
    simp only [periodicalItemSource, h1, h2, hsn2, Option.isSome_some,
      Option.isSome_none, Bool.true_or, Bool.or_false]

/-- Witness for C10: concrete periodical article with serial number
"77" and page range 1 to 9; the clause agrees with variants of entry
and parent changed outside the claimed fields, and with the page range
removed. -/
theorem c10_witness :
    periodicalItemSource c10entry c10parent =
      periodicalItemSource c10entryB c10parentB
  ∧ periodicalItemSource c10entry c10parent =
      periodicalItemSource c10entry.withPageRangeNone c10parent := by
  have h :=
    c10_periodical_field_sources c10entry c10parent c10entryB c10parentB
      rfl rfl rfl rfl rfl
  exact ⟨h.1, h.2 "77" rfl⟩

theorem amp_go_append (len : Int) (l1 : List String) :
    ∀ (k : Nat) (l2 : List String),
      amp_go len k (l1 ++ l2) = amp_go len k l1 ++ amp_go len (k + l1.length) l2 := by
  induction l1 with
  | nil =>
    intro k l2
    show amp_go len k l2 = "" ++ amp_go len (k + 0) l2
    rfl
  | cons n rest ih =>
    intro k l2
    show amp_step len k n ++ amp_go len (k + 1) (rest ++ l2) =
      (amp_step len k n ++ amp_go len (k + 1) rest)
        ++ amp_go len (k + (rest.length + 1)) l2
    rw [ih (k + 1) l2, String.append_assoc]
    have harith : k + 1 + rest.length = k + (rest.length + 1) := by omega
    rw [harith]

theorem amp_go_first19 (len : Int) (hlen : 21 ≤ len) :
    ∀ (l : List String) (k : Nat), k + l.length ≤ 19 →
      amp_go len k l = joinAll (l.map fun s => s ++ ", ") := by
  intro l
  induction l with
  | nil => intro k _; rfl
  | cons n rest ih =>
    intro k h
    have hk : k ≤ 18 := by
      simp only [List.length_cons] at h; omega
    show amp_step len k n ++ amp_go len (k + 1) rest = _
    have hskip : ¬(k > 19 ∧ len > 20 ∧ (k : Int) ≠ len - 1) := by
      intro hc; omega
    have hdots : ¬(k = 19 ∧ len > 20) := by
      intro hc; omega
    have hsep : (k : Int) ≤ len - 2 := by omega
    have hamp : ¬((k : Int) = len - 2) := by omega
    rw [amp_step, if_neg hskip, if_neg hdots, if_pos hsep, if_neg hamp,
      str_append_empty]
    show (n ++ ", ") ++ amp_go len (k + 1) rest = _
    rw [ih (k + 1) (by simp only [List.length_cons] at h; omega)]
    rfl

theorem amp_go_skip (len : Int) :
    ∀ (l : List String) (k : Nat), 20 ≤ k → (k : Int) + l.length ≤ len - 1 →
      amp_go len k l = "" := by
  intro l
  induction l with
  | nil => intro k _ _; rfl
  | cons n rest ih =>
    intro k hk h
    have hlen : (len : Int) > 20 := by
      simp only [List.length_cons] at h; push_cast at h; omega
    have hskip : k > 19 ∧ len > 20 ∧ (k : Int) ≠ len - 1 := by
      simp only [List.length_cons] at h; push_cast at h
      refine ⟨by omega, hlen, by omega⟩
    show amp_step len k n ++ amp_go len (k + 1) rest = ""
    rw [amp_step, if_pos hskip]
    have hrest : amp_go len (k + 1) rest = "" := by
      apply ih
      · omega
      · simp only [List.length_cons] at h; push_cast at h ⊢; omega
    rw [hrest]
    rfl

/-- Counterexample for C2: with 21 one-letter names the rendered list
is "a, b, ..., s, ... , & u" — the literal "... " is followed by the
", " separator and by "& " (index 19 is then the second-to-last), so
an ampersand DOES occur, contradicting the claim that truncation
yields the first 19 names, then "... ", then the last name with no
ampersand anywhere. -/
theorem c2_counterexample :
    c2names.length = 21 ∧
    ampersand_list c2names =
      "a, b, c, d, e, f, g, h, i, j, k, l, m, n, o, p, q, r, s, ... , & u" ∧
    '&' ∈ (ampersand_list c2names).data := by
  refine ⟨rfl, by decide, by decide⟩

/-- C2 (amended): for more than 20 persons the list renders indices
0..18 normally, each followed by its ", " separator; index 19 is
replaced by the literal "... " which still receives the ", " separator
(and, exactly when the list has 21 names, also "& ", because index 19
is then second-to-last); indices 20..N-2 are dropped entirely; the
last name closes the list. -/
theorem c2_ampersand_truncation (pre : List String) (m0 : String)
    (mid : List String) (last : String) (hpre : pre.length = 19) :
    ampersand_list (pre ++ m0 :: (mid ++ [last])) =
      joinAll (pre.map fun s => s ++ ", ") ++ "... , "
        ++ (if mid = [] then "& " else "") ++ last := by
  have hN : (pre ++ m0 :: (mid ++ [last])).length = 21 + mid.length := by
    simp [List.length_append, hpre]
    omega
  unfold ampersand_list
  rw [hN]
  have hlen : (21 : Int) ≤ ((21 + mid.length : Nat) : Int) := by push_cast; omega
  rw [amp_go_append ((21 + mid.length : Nat) : Int) pre 0 (m0 :: (mid ++ [last]))]
  rw [amp_go_first19 _ hlen pre 0 (by omega)]
  rw [show (0 + pre.length) = 19 from by omega]
  show _ ++ (amp_step _ 19 m0 ++ amp_go _ 20 (mid ++ [last])) = _
  rw [amp_go_append ((21 + mid.length : Nat) : Int) mid 20 [last]]
  rw [amp_go_skip _ mid 20 (by omega) (by push_cast; omega)]
  have hskip : ¬((19 : Nat) > 19 ∧ ((21 + mid.length : Nat) : Int) > 20 ∧
      ((19 : Nat) : Int) ≠ ((21 + mid.length : Nat) : Int) - 1) := by
    intro hc; omega
  have hdots : (19 : Nat) = 19 ∧ ((21 + mid.length : Nat) : Int) > 20 := by
    refine ⟨rfl, by push_cast; omega⟩
  have hsep : ((19 : Nat) : Int) ≤ ((21 + mid.length : Nat) : Int) - 2 := by
    push_cast; omega
  rw [amp_step, if_neg hskip, if_pos hdots, if_pos hsep]
  have hlast : amp_step ((21 + mid.length : Nat) : Int) (20 + mid.length) last
      = last := by
    have hskip2 : ¬((20 + mid.length) > 19 ∧
        ((21 + mid.length : Nat) : Int) > 20 ∧
        ((20 + mid.length : Nat) : Int) ≠ ((21 + mid.length : Nat) : Int) - 1) := by
      intro hc; obtain ⟨_, _, hc3⟩ := hc; apply hc3; push_cast; omega
    have hdots2 : ¬((20 + mid.length) = 19 ∧
        ((21 + mid.length : Nat) : Int) > 20) := by
      intro hc; omega
    have hsep2 : ¬(((20 + mid.length : Nat) : Int) ≤
        ((21 + mid.length : Nat) : Int) - 2) := by
      push_cast; omega
    rw [amp_step, if_neg hskip2, if_neg hdots2, if_neg hsep2, if_neg (by
      push_cast; omega), str_append_empty, str_append_empty]
  have hsingle : amp_go ((21 + mid.length : Nat) : Int) (20 + mid.length) [last]
      = amp_step ((21 + mid.length : Nat) : Int) (20 + mid.length) last := by
    show amp_step _ _ last ++ "" = _
    rw [str_append_empty]
  rw [hsingle, hlast]
  by_cases hmid : mid = []
  · subst hmid
    have hamp : ((19 : Nat) : Int) = ((21 + ([] : List String).length : Nat) : Int) - 2 := by
      simp
    rw [if_pos hamp, if_pos rfl]
    simp only [String.append_assoc]
    rfl
  · have hamp : ¬(((19 : Nat) : Int) =
        ((21 + mid.length : Nat) : Int) - 2) := by
      intro hc
      have hml : mid.length ≠ 0 := fun h0 => hmid (List.length_eq_zero.mp h0)
      push_cast at hc; omega
    rw [if_neg hamp, if_neg hmid, str_append_empty]
    simp only [String.append_assoc]
    rfl

/-- Witness for the amended C2 at 21 concrete names (the "& " case). -/
theorem c2_witness :
    ampersand_list
      (["a", "b", "c", "d", "e", "f", "g", "h", "i", "j", "k", "l", "m", "n",
        "o", "p", "q", "r", "s"] ++ "t" :: (([] : List String) ++ ["u"])) =
      joinAll ((["a", "b", "c", "d", "e", "f", "g", "h", "i", "j", "k", "l",
        "m", "n", "o", "p", "q", "r", "s"]).map fun s => s ++ ", ")
        ++ "... , " ++ (if ([] : List String) = [] then "& " else "") ++ "u" :=
  c2_ampersand_truncation _ "t" [] "u" rfl

theorem findMatch_lt {pm : EntryTypeModality} :
    ∀ {pars : List Entry} {i : Nat}, findMatch pm pars = some i → i < pars.length := by
  intro pars
  induction pars with
  | nil => intro i h; simp [findMatch] at h
  | cons p ps ih =>
    intro i h
    unfold findMatch at h
    by_cases hm : pm.matches p.entry_type
    · rw [if_pos hm] at h
      cases h
      simp
    · rw [if_neg hm] at h
      obtain ⟨j, hj, hji⟩ := Option.map_eq_some'.mp h
      have := ih hj
      simp only [List.length_cons]
      omega

theorem checkParents_headD_lt {pars : List Entry} {pm : EntryTypeModality}
    {pms : List EntryTypeModality} {i : List Nat}
    (h : checkParents pars (pm :: pms) = some i) :
    i.headD 0 < pars.length := by
  unfold checkParents at h
  cases hf : findMatch pm pars with
  | none => rw [hf] at h; simp at h
  | some j =>
    rw [hf] at h
    cases hc : checkParents pars pms with
    | none => rw [hc] at h; simp at h
    | some js =>
      rw [hc] at h
      simp only [Option.some.injEq] at h
      rw [← h]
      simpa using findMatch_lt hf

theorem check_headD_lt {e : Entry} {s : EntryTypeSpec} {i : List Nat}
    (h : check_with_spec e s = some i) (hne : s.parents ≠ []) :
    i.headD 0 < e.parents.length := by
  unfold check_with_spec at h
  split at h
  · cases hps : s.parents with
    | nil => exact absurd hps hne
    | cons pm pms => rw [hps] at h; exact checkParents_headD_lt h
  · exact absurd h (by simp)

theorem checkCollection_headD_lt {e : Entry} {i : List Nat}
    (h : checkCollection e = some i) : i.headD 0 < e.parents.length := by
  unfold checkCollection at h
  cases ha : check_with_spec e collectionASpec with
  | some j =>
    rw [ha] at h
    simp only [Option.some.injEq] at h
    subst h
    exact check_headD_lt ha (by simp [collectionASpec, EntryTypeSpec.single_parent])
  | none =>
    rw [ha] at h
    cases hb : check_with_spec e collectionBSpec with
    | some j =>
      rw [hb] at h
      simp only [Option.some.injEq] at h
      subst h
      exact check_headD_lt hb (by simp [collectionBSpec, EntryTypeSpec.single_parent])
    | none =>
      rw [hb] at h
      cases hc : check_with_spec e collectionCSpec with
      | some j =>
        rw [hc] at h
        simp only [Option.some.injEq] at h
        subst h
        exact check_headD_lt hc (by simp [collectionCSpec, EntryTypeSpec.single_parent])
      | none =>
        rw [hc] at h
        exact check_headD_lt h (by simp [collectionDSpec, EntryTypeSpec.single_parent])

theorem checkWeb_headD_lt {e : Entry} {i : List Nat}
    (h : checkWeb e = some i) : i.headD 0 < e.parents.length := by
  unfold checkWeb at h
  cases ha : check_with_spec e webASpec with
  | some j =>
    rw [ha] at h
    simp only [Option.some.injEq] at h
    subst h
    exact check_headD_lt ha (by simp [webASpec, EntryTypeSpec.single_parent])
  | none =>
    rw [ha] at h
    exact check_headD_lt h (by simp [webBSpec, EntryTypeSpec.single_parent])

theorem getElem?_isSome_of_lt {α : Type} {l : List α} {i : Nat}
    (h : i < l.length) : (l[i]?).isSome := by
  rw [List.getElem?_eq_getElem h]
  rfl

theorem after_tv_isSome (e : Entry) : (for_entry_after_tv e).isSome := by
  unfold for_entry_after_tv
  cases h1 : check_with_spec e thesisSpec with
  | some _ => rfl
  | none =>
  cases h2 : check_with_spec e manuscriptSpec with
  | some _ => rfl
  | none =>
  cases h3 : check_with_spec e artContainerSpec with
  | some i =>
    rw [optIsSomeMap]
    exact getElem?_isSome_of_lt
      (check_headD_lt h3 (by simp [artContainerSpec, EntryTypeSpec.single_parent]))
  | none =>
  cases h4 : check_with_spec e artSpec with
  | some _ => rfl
  | none =>
  cases h5 : check_with_spec e webStandaloneSpec with
  | some _ => rfl
  | none =>
  cases h6 : checkWeb e with
  | some i =>
    rw [optIsSomeMap]
    exact getElem?_isSome_of_lt (checkWeb_headD_lt h6)
  | none =>
  cases h7 : check_with_spec e talkSpec with
  | some i =>
    rw [optIsSomeMap]
    exact getElem?_isSome_of_lt
      (check_headD_lt h7 (by simp [talkSpec, EntryTypeSpec.single_parent]))
  | none => rfl

theorem for_entry_isSome (e : Entry) : (SourceType.for_entry e).isSome := by
  unfold SourceType.for_entry
  cases h1 : check_with_spec e periodicalSpec with
  | some i =>
    rw [optIsSomeMap]
    exact getElem?_isSome_of_lt
      (check_headD_lt h1 (by simp [periodicalSpec, EntryTypeSpec.single_parent]))
  | none =>
  cases h2 : checkCollection e with
  | some i =>
    rw [optIsSomeMap]
    exact getElem?_isSome_of_lt (checkCollection_headD_lt h2)
  | none =>
  cases h3 : check_with_spec e tvSeriesSpec with
  | some i =>
    cases hg : (e.issue.isSome && e.volume.isSome) with
    | true =>
      show (Option.map SourceType.TvSeries e.parents[i.headD 0]?).isSome = true
      rw [optIsSomeMap]
      exact getElem?_isSome_of_lt
        (check_headD_lt h3 (by simp [tvSeriesSpec, EntryTypeSpec.single_parent]))
    | false =>
      show (for_entry_after_tv e).isSome = true
      exact after_tv_isSome e
  | none => exact after_tv_isSome e

theorem after_tv_ne_tv (e : Entry) (p : Entry) :
    for_entry_after_tv e ≠ some (SourceType.TvSeries p) := by
  intro h
  unfold for_entry_after_tv at h
  cases h1 : check_with_spec e thesisSpec with
  | some j => rw [h1] at h; simp at h
  | none =>
  rw [h1] at h
  cases h2 : check_with_spec e manuscriptSpec with
  | some j => rw [h2] at h; simp at h
  | none =>
  rw [h2] at h
  cases h3 : check_with_spec e artContainerSpec with
  | some i =>
    rw [h3] at h
    simp [Option.map_eq_some'] at h
  | none =>
  rw [h3] at h
  cases h4 : check_with_spec e artSpec with
  | some j => rw [h4] at h; simp at h
  | none =>
  rw [h4] at h
  cases h5 : check_with_spec e webStandaloneSpec with
  | some j => rw [h5] at h; simp at h
  | none =>
  rw [h5] at h
  cases h6 : checkWeb e with
  | some i =>
    rw [h6] at h
    simp [Option.map_eq_some'] at h
  | none =>
  rw [h6] at h
  cases h7 : check_with_spec e talkSpec with
  | some i =>
    rw [h7] at h
    simp [Option.map_eq_some'] at h
  | none => rw [h7] at h; simp at h

theorem for_entry_periodical_eq {e : Entry} {i : List Nat}
    (h : check_with_spec e periodicalSpec = some i) :
    SourceType.for_entry e =
      (e.parents[i.headD 0]?).map SourceType.PeriodicalItem := by
  unfold SourceType.for_entry
  cases hc : check_with_spec e periodicalSpec with
  | none => rw [hc] at h; cases h
  | some j => rw [hc] at h; injection h with h; subst h; rfl

theorem for_entry_collection_eq {e : Entry} {i : List Nat}
    (hp : check_with_spec e periodicalSpec = none)
    (h : checkCollection e = some i) :
    SourceType.for_entry e =
      (e.parents[i.headD 0]?).map SourceType.CollectionItem := by
  unfold SourceType.for_entry
  cases hc : check_with_spec e periodicalSpec with
  | some j => rw [hc] at hp; cases hp
  | none =>
    cases hcc : checkCollection e with
    | none => rw [hcc] at h; cases h
    | some j => rw [hcc] at h; injection h with h; subst h; rfl

theorem for_entry_tv_nomatch_eq {e : Entry}
    (hp : check_with_spec e periodicalSpec = none)
    (hc : checkCollection e = none)
    (h3 : check_with_spec e tvSeriesSpec = none) :
    SourceType.for_entry e = for_entry_after_tv e := by
  unfold SourceType.for_entry
  cases hc1 : check_with_spec e periodicalSpec with
  | some j => rw [hc1] at hp; cases hp
  | none =>
    cases hc2 : checkCollection e with
    | some j => rw [hc2] at hc; cases hc
    | none =>
      cases hc3 : check_with_spec e tvSeriesSpec with
      | some j => rw [hc3] at h3; cases h3
      | none => rfl

theorem for_entry_tv_gated_eq {e : Entry} {i : List Nat}
    (hp : check_with_spec e periodicalSpec = none)
    (hc : checkCollection e = none)
    (h3 : check_with_spec e tvSeriesSpec = some i)
    (hg : (e.issue.isSome && e.volume.isSome) = false) :
    SourceType.for_entry e = for_entry_after_tv e := by
  unfold SourceType.for_entry
  cases hc1 : check_with_spec e periodicalSpec with
  | some j => rw [hc1] at hp; cases hp
  | none =>
    cases hc2 : checkCollection e with
    | some j => rw [hc2] at hc; cases hc
    | none =>
      cases hc3 : check_with_spec e tvSeriesSpec with
      | none => rfl
      | some j =>
        show (if (e.issue.isSome && e.volume.isSome) = true then _ else
          for_entry_after_tv e) = for_entry_after_tv e
        rw [hg]
        simp

/-- C3: classification always terminates with exactly one shape (the
total function is always defined, `Generic` being the fallback when no
test matches), and the cascade order is load-bearing: an entry
structurally eligible both for the Periodical test and for a later,
looser test (either web-contained pattern) resolves to
`PeriodicalItem`. -/
theorem c3_cascade_precedence (e : Entry) :
    (SourceType.for_entry e).isSome
  ∧ ((check_with_spec e periodicalSpec).isSome →
      ((check_with_spec e webASpec).isSome ∨ (check_with_spec e webBSpec).isSome) →
      ∃ p, SourceType.for_entry e = some (SourceType.PeriodicalItem p))
  ∧ (noTestMatches e → SourceType.for_entry e = some SourceType.Generic) := by
  refine ⟨for_entry_isSome e, ?_, ?_⟩
  · intro h1 _
    obtain ⟨i, hi⟩ := Option.isSome_iff_exists.mp h1
    have hlt := check_headD_lt hi
      (by simp [periodicalSpec, EntryTypeSpec.single_parent])
    obtain ⟨p, hp⟩ := Option.isSome_iff_exists.mp (getElem?_isSome_of_lt hlt)
    refine ⟨p, ?_⟩
    rw [for_entry_periodical_eq hi, hp]
    rfl
  · intro hno
    obtain ⟨h1, h2, h3, h4, h5, h6, h7, h8, h9, h10⟩ := hno
    rw [for_entry_tv_nomatch_eq h1 h2 h3]
    unfold for_entry_after_tv
    rw [h4, h5, h6, h7, h8, h9, h10]

/-- Witness for C3: a web item contained in a periodical (eligible for
the periodical and web tests) classifies as `PeriodicalItem`, and a
parentless article matching no test classifies as `Generic`. -/
theorem c3_witness :
    (∃ p, SourceType.for_entry c3entry = some (SourceType.PeriodicalItem p)) ∧
    SourceType.for_entry c3generic = some SourceType.Generic := by
  have h := c3_cascade_precedence c3entry
  have hg := c3_cascade_precedence c3generic
  exact ⟨h.2.1 rfl (Or.inr rfl),
    hg.2.2 ⟨rfl, rfl, rfl, rfl, rfl, rfl, rfl, rfl, rfl, rfl⟩⟩

/-- C5: an entry whose (own, parent) types match the TvSeries pattern
but which lacks an issue or lacks a volume never classifies as
`TvSeries`; the test is skipped and the cascade continues with the
later tests (when no earlier test matched, the result is exactly that
of the post-TvSeries cascade tail). -/
theorem c5_tv_gate (e : Entry)
    (htv : (check_with_spec e tvSeriesSpec).isSome)
    (hmiss : e.issue = none ∨ e.volume = none) :
    (∀ p, SourceType.for_entry e ≠ some (SourceType.TvSeries p))
  ∧ (check_with_spec e periodicalSpec = none → checkCollection e = none →
      SourceType.for_entry e = for_entry_after_tv e) := by
  have hgate : (e.issue.isSome && e.volume.isSome) = false := by
    cases hmiss with
    | inl hh => simp [hh]
    | inr hh => simp [hh]
  constructor
  · intro p
    cases h1 : check_with_spec e periodicalSpec with
    | some i =>
      rw [for_entry_periodical_eq h1]
      simp [Option.map_eq_some']
    | none =>
      cases h2 : checkCollection e with
      | some i =>
        rw [for_entry_collection_eq h1 h2]
        simp [Option.map_eq_some']
      | none =>
        cases h3 : check_with_spec e tvSeriesSpec with
        | none => rw [for_entry_tv_nomatch_eq h1 h2 h3]; exact after_tv_ne_tv e p
        | some i =>
          rw [for_entry_tv_gated_eq h1 h2 h3 hgate]
          exact after_tv_ne_tv e p
  · intro hp hc
    cases h3 : check_with_spec e tvSeriesSpec with
    | none => exact for_entry_tv_nomatch_eq hp hc h3
    | some i => exact for_entry_tv_gated_eq hp hc h3 hgate

/-- Witness for C5: a video with a video parent but no issue and no
volume is not classified as `TvSeries`; the cascade continues (and, all
later tests failing too, ends at `Generic`). -/
theorem c5_witness :
    SourceType.for_entry c5entry ≠ some (SourceType.TvSeries c5parent) ∧
    SourceType.for_entry c5entry = for_entry_after_tv c5entry := by
  have h := c5_tv_gate c5entry rfl (Or.inl rfl)
  exact ⟨h.1 c5parent, h.2 rfl rfl⟩

/-- C9: classification is safe — it always produces a result (every
parent dereference performed by the classifier is in bounds, since the
modelled type-predicate interface returns indices obtained by scanning
the parent list), and on an entry with an empty parent list no
parent-carrying shape is ever selected. -/
theorem c9_classifier_safety (e : Entry) :
    (SourceType.for_entry e).isSome
  ∧ (e.parents = [] →
      SourceType.for_entry e = some SourceType.Thesis ∨
      SourceType.for_entry e = some SourceType.Manuscript ∨
      SourceType.for_entry e = some SourceType.StandaloneArt ∨
      SourceType.for_entry e = some SourceType.StandaloneWebItem ∨
      SourceType.for_entry e = some SourceType.Generic) := by
  refine ⟨for_entry_isSome e, ?_⟩
  intro hnil
  cases e with
  | mk c =>
    cases c with
    | mk ty ps t au ed af d v iss edi pr sn u pub org ar =>
      simp only [Entry.parents, Entry.core] at hnil
      subst hnil
      cases ty <;>
        simp [SourceType.for_entry, for_entry_after_tv, check_with_spec,
          checkParents, findMatch, checkCollection, checkWeb,
          EntryTypeModality.matches, periodicalSpec, collectionASpec,
          collectionBSpec, collectionCSpec, collectionDSpec, tvSeriesSpec,
          thesisSpec, manuscriptSpec, artContainerSpec, artSpec,
          webStandaloneSpec, webASpec, webBSpec, talkSpec,
          EntryTypeSpec.single_parent, EntryTypeSpec.with_single,
          EntryTypeSpec.new, Entry.entry_type, Entry.parents, Entry.issue,
          Entry.volume, Entry.core]

/-- Witness for C9 at a concrete parentless thesis entry. -/
theorem c9_witness :
    (SourceType.for_entry c9entry).isSome ∧
    (SourceType.for_entry c9entry = some SourceType.Thesis ∨
     SourceType.for_entry c9entry = some SourceType.Manuscript ∨
     SourceType.for_entry c9entry = some SourceType.StandaloneArt ∨
     SourceType.for_entry c9entry = some SourceType.StandaloneWebItem ∨
     SourceType.for_entry c9entry = some SourceType.Generic) :=
  ⟨(c9_classifier_safety c9entry).1, (c9_classifier_safety c9entry).2 rfl⟩

/-- C6: given a title, the rendered title carries exactly one of three
mutually exclusive suffix forms — the multivolume prefix form when the
book-in-book pattern and a volume are present; else the `ed_vol_str`
parenthetical when a volume or edition is present and the type is one
of Book, Report, Reference, Anthology or Proceedings (with edition 2
and volume 4 the suffix is exactly " (2nd ed., Vol. 4)."); else the
plain "." terminator unless the title already ends in a question mark,
period or exclamation mark — the parenthetical is never combined with
the plain terminator. -/
theorem c6_title_suffix_forms (e : Entry) (t : String) (ht : e.title = some t) :
    (∀ idxs v p pt, check_with_spec e multivolSpec = some idxs →
      e.volume = some v → e.parents[idxs.headD 0]? = some p →
      p.title = some pt →
      get_title e = some (pt ++ ": " ++ format_range "Vol." "Vols." v
        ++ " " ++ t ++ "."))
  ∧ ((check_with_spec e multivolSpec = none ∨ e.volume = none) →
      (e.volume.isSome ∨ e.edition.isSome) →
      (check_with_spec e bookSpec).isSome →
      get_title e = some (t ++ ed_vol_str e))
  ∧ ((check_with_spec e multivolSpec = none ∨ e.volume = none) →
      ((e.volume = none ∧ e.edition = none) ∨ check_with_spec e bookSpec = none) →
      get_title e = (if lastCharD t 'a' ≠ '?' ∧ lastCharD t 'a' ≠ '.'
        ∧ lastCharD t 'a' ≠ '!' then some (t ++ ".") else some t))
  ∧ ((e.edition = some (NumOrStr.Number 2) ∧ e.volume = some ⟨4, 4⟩) →
      ed_vol_str e = " (2nd ed., Vol. 4).") := by
  refine ⟨?_, ?_, ?_, ?_⟩
  · intro idxs v p pt hc hv hp hpt
    have hp2 : e.parents[idxs.head?.getD 0]? = some p := by simpa using hp
    simp [get_title, ht, hc, hv, hp2, hpt]
  · intro hmv hve hbook
    rcases hmv with hh | hh
    · rcases hve with hh2 | hh2
      · simp [get_title, ht, hh, hh2, hbook]
      · simp [get_title, ht, hh, hh2, hbook]
    · rcases hve with hh2 | hh2
      · simp [hh] at hh2
      · simp [get_title, ht, hh, hh2, hbook]
        cases check_with_spec e multivolSpec <;> rfl
  · intro hmv hplain
    rcases hplain with ⟨hv0, he0⟩ | hb0
    · rcases hmv with hh | hh
      · simp [get_title, ht, hh, hv0, he0]
      · simp [get_title, ht, hh, hv0, he0]
        cases check_with_spec e multivolSpec <;> rfl
    · rcases hmv with hh | hh
      · simp [get_title, ht, hh, hb0]
      · simp [get_title, ht, hh, hb0]
        cases check_with_spec e multivolSpec <;> rfl
  · intro hh
    obtain ⟨he, hv⟩ := hh
    simp [ed_vol_str, he, hv]
    decide

/-- Witness for C6: a book with title "T", edition 2 and volume 4
renders exactly "T (2nd ed., Vol. 4)." — the parenthetical form alone,
not combined with the plain terminator. -/
theorem c6_witness : get_title c6entry = some "T (2nd ed., Vol. 4)." := by
  have h := c6_title_suffix_forms c6entry "T" rfl
  have h2 := h.2.1 (Or.inl rfl) (Or.inl rfl) rfl
  have h4 := h.2.2.2 ⟨rfl, rfl⟩
  rw [h2, h4]
  decide

/-- The authored-name test of apa.rs, reproduced against the model:
three authors render with initials, hyphen-preserving initials, and
the ampersand before the final name. -/
example :
    ampersand_list (name_list
      [⟨"van de Graf", some "Judith", none, none⟩,
       ⟨"Günther", some "Hans-Joseph", none, none⟩,
       ⟨"Mädje", some "Laurenz Elias", none, none⟩]) =
    "van de Graf, J., Günther, H.-J., & Mädje, L. E." := by decide
